import Mathlib

/-!
Shallow embedding of the slack-exporter-importer retrieval and rendering
core (src/exporter.py), with theorems settling the frozen claims about it.

Conventions of the embedding:
* Python dicts with contractually-interpreted keys become structures whose
  optional keys are `Option`-valued; keys the Slack API always populates
  (`id`, `type`, `ok`, message `ts`) are plain fields.
* `sys.exit(1)` paths become `Except.error`: the traversal aborts and no
  accumulated value reaches the caller.
* Python `str.strip` / `str.replace` / `"sep".join(...)` / `str.split` are
  reimplemented on `List Char` / `String` with the same semantics
  (left-to-right, non-overlapping replacement; whitespace stripping).
* Machine-level HTTP is replaced by the finite list of decoded page bodies
  the server would return, in order; one consumed page = one request
  issued by `get_data` (429 retries are modelled separately, see `rl429`).
-/

namespace SlackExport

/-- Python `str.strip` on the character list. -/
def stripChars (l : List Char) : List Char :=
  ((l.dropWhile Char.isWhitespace).reverse.dropWhile Char.isWhitespace).reverse

/-- Python `str.strip`. -/
def stripStr (s : String) : String :=
  ⟨stripChars s.data⟩

/-! ## Rate-aware request executor (`get_data`, src/exporter.py lines 51-88)

Only the 429 branch carries state: `attempt` (incremented each request) and
`base_sleep` (doubled while `base_sleep * 2^attempt < 60`).  For a run of
consecutive 429 responses with no `Retry-After` header, the computed
pre-buffer delay at each attempt is `base_sleep * 2^(attempt-1)`. -/

/-- Constant added to every rate-limit delay (src/exporter.py line 14). -/
def ADDITIONAL_SLEEP_TIME : Nat := 5

/-- Mutable state of `get_data`'s retry loop. -/
structure RLState where
  attempt : Nat
  baseSleep : Nat
  deriving DecidableEq

/-- State at entry of `get_data`: `attempt = 0`, `base_sleep = 1`. -/
def rlInit : RLState := ⟨0, 1⟩

/-- One 429 iteration with no `Retry-After` header: returns the computed
pre-buffer delay `base_sleep * 2^(attempt-1)` and the updated state
(`base_sleep` doubles only while `base_sleep * 2^attempt < 60`). -/
def rl429 (s : RLState) : Nat × RLState :=
  let attempt := s.attempt + 1
  let retryAfter := s.baseSleep * 2 ^ (attempt - 1)
  let base := if s.baseSleep * 2 ^ attempt < 60 then s.baseSleep * 2 else s.baseSleep
  (retryAfter, ⟨attempt, base⟩)

/-- State after `n` consecutive 429 responses. -/
def rlIter : Nat → RLState
  | 0 => rlInit
  | n + 1 => (rl429 (rlIter n)).2

/-- Pre-buffer delay computed at the `(n+1)`-th consecutive 429 response
(0-indexed) when no `Retry-After` header is present. -/
def preDelay (n : Nat) : Nat := (rl429 (rlIter n)).1

/-- Actual sleep duration at the `(n+1)`-th consecutive 429 response. -/
def sleepTime (n : Nat) : Nat := preDelay n + ADDITIONAL_SLEEP_TIME

/-! ## Pagination (`get_at_cursor`, `paginated_get`, src/exporter.py lines 94-157) -/

/-- Decoded body (plus HTTP status) of one paginated response.  `items` is
the value under the combine key (`none` models the key being absent);
`nextCursor` models `response_metadata.next_cursor` when present. -/
structure SlackPage where
  status : Nat
  ok : Bool
  nextCursor : Option String
  items : Option (List String)
  deriving DecidableEq

/-- Abort causes of a traversal (each is a `sys.exit(1)` in the source, or
the server failing to answer at all). -/
inductive PageErr where
  | httpError
  | apiNotOk
  | keyError
  | noResponse
  deriving DecidableEq

/-- Cursor extraction in `get_at_cursor`: absent stays absent, and a cursor
that strips to the empty string becomes `None`. -/
def extractCursor (oc : Option String) : Option String :=
  match oc with
  | none => none
  | some c => if stripStr c = "" then none else some c

/-- `get_at_cursor` on one decoded response: exit on non-200 status, exit on
`ok = False`, otherwise return the (normalised) next cursor and the body. -/
def get_at_cursor (p : SlackPage) : Except PageErr (Option String × SlackPage) :=
  if p.status ≠ 200 then .error .httpError
  else if p.ok = false then .error .apiNotOk
  else .ok (extractCursor p.nextCursor, p)

/-- `paginated_get` over the sequence of decoded pages the server returns:
fetch a page, append its combine-key items (exiting if the key is absent),
stop when the normalised cursor is `None`, else continue with the next
page.  Also counts the requests issued.  `sys.exit` paths are `.error`, so
no partial accumulation ever escapes. -/
def paginated_get : List SlackPage → Except PageErr (List String × Nat)
  | [] => .error .noResponse
  | p :: rest =>
    match get_at_cursor p with
    | .error e => .error e
    | .ok (next, d) =>
      match d.items with
      | none => .error .keyError
      | some its =>
        match next with
        | none => .ok (its, 1)
        | some _ =>
          match paginated_get rest with
          | .error e => .error e
          | .ok (more, n) => .ok (its ++ more, n + 1)

/-- A page that keeps the traversal going and yields its items: status 200,
`ok`, combine key present, and a cursor that does not strip to empty. -/
def goodPage (p : SlackPage) : Prop :=
  p.status = 200 ∧ p.ok = true ∧ p.items.isSome ∧
    ∃ c, p.nextCursor = some c ∧ stripStr c ≠ ""

/-! ## String helpers mirroring the Python primitives the renderer uses -/

/-- Python `str.replace` (left-to-right, non-overlapping) on character
lists, fuelled by the length of the subject string. -/
def replaceAux (p r : List Char) : Nat → List Char → List Char
  | _, [] => []
  | 0, s => s
  | fuel + 1, c :: rest =>
    if p ≠ [] ∧ p.isPrefixOf (c :: rest) then
      r ++ replaceAux p r fuel ((c :: rest).drop p.length)
    else
      c :: replaceAux p r fuel rest

/-- Python `str.replace` for the non-empty patterns the renderer uses. -/
def pyReplace (p r s : String) : String :=
  ⟨replaceAux p.data r.data s.data.length s.data⟩

/-- Whether `p` occurs as a contiguous run inside the list. -/
def containsSub (p : List Char) : List Char → Bool
  | [] => p.isEmpty
  | c :: rest => p.isPrefixOf (c :: rest) || containsSub p rest

/-- Whether `sub` occurs as a substring of `s`. -/
def strContains (s sub : String) : Bool := containsSub sub.data s.data

/-- Python `str.rstrip("\t")`. -/
def rstripTabs (s : String) : String :=
  ⟨(s.data.reverse.dropWhile (fun c => c = '\t')).reverse⟩

/-! ## Record model (users, messages, attachments, files, reactions) -/

/-- A user's `profile` sub-dictionary; both name fields may be missing. -/
structure Profile where
  real_name : Option String
  display_name : Option String
  deriving DecidableEq

/-- A user-list record; `id` and `name` are always populated by the API,
the profile and its fields are not. -/
structure User where
  id : String
  name : String
  profile : Option Profile
  deriving DecidableEq

/-- One `fields` entry of an attachment. -/
structure AttField where
  title : Option String
  value : Option String
  deriving DecidableEq

/-- A message attachment: title, text and field list are all optional. -/
structure Attachment where
  title : Option String
  text : Option String
  fields : Option (List AttField)
  deriving DecidableEq

/-- A file reference carried by a message; `name` or the download URL may
be missing (deleted, oversize, or unavailable files). -/
structure SFile where
  id : String
  name : Option String
  url : Option String
  deriving DecidableEq

/-- A reaction: its label and the users who applied it. -/
structure Reaction where
  name : String
  users : List String
  deriving DecidableEq

/-- A raw history record.  `ts` is the record's time key, already rounded
to whole seconds (the claims never depend on the float parsing). -/
structure Msg where
  type : String
  user : Option String
  bot_id : Option String
  username : Option String
  subtype : Option String
  text : Option String
  ts : Nat
  attachments : Option (List Attachment)
  reactions : Option (List Reaction)
  files : Option (List SFile)
  parent_user_id : Option String
  deriving DecidableEq

/-! ## Record extraction (src/exporter.py lines 281-297 and 360-376) -/

/-- `name_from_uid`: linear scan; for the first record whose `id` matches,
return its `name`, or with `real` the `profile.real_name`, falling back to
`profile.display_name` and then `"[no full name]"` (a missing profile key
raises `KeyError` in both lookups, caught the same way); if no record
matches, return `"[null user]"`. -/
def name_from_uid (user_id : String) (users : List User) (real : Bool) : String :=
  match users with
  | [] => "[null user]"
  | u :: rest =>
    if u.id ≠ user_id then name_from_uid user_id rest real
    else if real then
      match u.profile with
      | some p =>
        match p.real_name with
        | some rn => rn
        | none =>
          match p.display_name with
          | some dn => dn
          | none => "[no full name]"
      | none => "[no full name]"
    else u.name

/-- The three classifications a record of type `"message"` can receive. -/
inductive MsgClass where
  | userMsg
  | botMsg
  | unknownMsg
  deriving DecidableEq

/-- Classification in `parse_channel_history`: `"user" in msg`, else
`"bot_id" in msg or "username" in msg`, else unknown.  The `subtype` field
is never consulted. -/
def classify (m : Msg) : MsgClass :=
  if m.user.isSome then .userMsg
  else if m.bot_id.isSome || m.username.isSome then .botMsg
  else .unknownMsg

/-- Bot display name: `msg.get("username", msg.get("bot_id", "Bot"))`. -/
def botName (m : Msg) : String :=
  m.username.getD (m.bot_id.getD "Bot")

/-- The `usr["name"]` value of the rendered entry. -/
def usrName (m : Msg) (users : List User) : String :=
  match classify m with
  | .userMsg => name_from_uid (m.user.getD "") users false
  | .botMsg => botName m
  | .unknownMsg => "Unknown"

/-- The `usr["real_name"]` value of the rendered entry. -/
def usrRealName (m : Msg) (users : List User) : String :=
  match classify m with
  | .userMsg => name_from_uid (m.user.getD "") users true
  | .botMsg => botName m
  | .unknownMsg => "Unknown"

/-! ## Text resolution and mention substitution (lines 382-407) -/

/-- Contribution of one attachment to the synthesized text: its text, then
`"Title: ..."`, then one `"label: value"` line per field entry. -/
def attLine (a : Attachment) : String :=
  (match a.text with | some t => t ++ "\n" | none => "") ++
  (match a.title with | some t => "Title: " ++ t ++ "\n" | none => "") ++
  (match a.fields with
   | some fs =>
     String.join (fs.map (fun f => f.title.getD "" ++ ": " ++ f.value.getD "" ++ "\n"))
   | none => "")

/-- Text synthesized from the `attachments` list, empty if absent. -/
def attText (m : Msg) : String :=
  match m.attachments with
  | some ats => String.join (ats.map attLine)
  | none => ""

/-- The `text`/`attachments` branch: use `text` when present and
non-blank, else synthesize from attachments. -/
def rawText (m : Msg) : String :=
  match m.text with
  | some t => if stripStr t = "" then attText m else t
  | none => attText m

/-- Final display text: blank resolves to the fixed placeholder. -/
def resolveText (m : Msg) : String :=
  if stripStr (rawText m) = "" then "[no message content]" else rawText m

/-- The literal mention token of a user id. -/
def mentionTok (uid : String) : String := "<@" ++ uid ++ ">"

/-- The mention-substitution loop: for each known user id in table order,
replace every `<@id>` with `<@id> (name)`. -/
def substituteMentions (users : List User) (t : String) : String :=
  (users.map (fun u => u.id)).foldl
    (fun txt uid =>
      pyReplace (mentionTok uid)
        (mentionTok uid ++ " (" ++ name_from_uid uid users false ++ ")") txt) t

/-! ## Entry assembly and the transcript (lines 378-457) -/

/-- The 24-asterisk separator. -/
def SEP : String := ⟨List.replicate 24 '*'⟩

/-- `YYYY-MM-DD HH:MM:SS` rendering of a whole-second Unix timestamp
(civil-from-days algorithm, proleptic Gregorian). -/
def formatTs (t : Nat) : String :=
  let pad2 := fun (n : Nat) => if n < 10 then "0" ++ toString n else toString n
  let pad4 := fun (n : Nat) =>
    if n < 10 then "000" ++ toString n
    else if n < 100 then "00" ++ toString n
    else if n < 1000 then "0" ++ toString n
    else toString n
  let z := t / 86400 + 719468
  let era := z / 146097
  let doe := z % 146097
  let yoe := (doe - doe / 1460 + doe / 36524 - doe / 146096) / 365
  let doy := doe - (365 * yoe + yoe / 4 - yoe / 100)
  let mp := (5 * doy + 2) / 153
  let day := doy - (153 * mp + 2) / 5 + 1
  let month := if mp < 10 then mp + 3 else mp - 9
  let year := yoe + era * 400 + (if month ≤ 2 then 1 else 0)
  let secs := t % 86400
  pad4 year ++ "-" ++ pad2 month ++ "-" ++ pad2 day ++ " " ++
    pad2 (secs / 3600) ++ ":" ++ pad2 (secs % 3600 / 60) ++ ":" ++ pad2 (secs % 60)

/-- The resolved-file line `" - [id] name, url"`. -/
def fileLine (f : SFile) : String :=
  " - [" ++ f.id ++ "] " ++ f.name.getD "" ++ ", " ++ f.url.getD ""

/-- The unavailable-file placeholder line. -/
def delLine (f : SFile) : String :=
  " - [" ++ f.id ++ "] [deleted, oversize, or unavailable file]"

/-- The files block of an entry: partition into `deleted` (missing name or
download URL) and the rest, then append the two newline-joined groups.  As
in the source, nothing separates the two joined groups. -/
def filesBlock (files : List SFile) : String :=
  let deleted := files.filter (fun f => f.name.isNone || f.url.isNone)
  let okFiles := files.filter (fun f => decide (f ∉ deleted))
  "\nFiles:\n" ++ String.intercalate "\n" (okFiles.map fileLine) ++
    String.intercalate "\n" (deleted.map delLine)

/-- The reactions summary line. -/
def reactionsBlock (users : List User) (rxns : List Reaction) : String :=
  "\nReactions: " ++ String.intercalate ", "
    (rxns.map (fun x => x.name ++ " (" ++
      String.intercalate ", " (x.users.map (fun u => name_from_uid u users false)) ++ ")"))

/-- Thread indentation: prefix every line with a tab. -/
def indentEntry (entry : String) : String :=
  String.intercalate "\n" ((entry.splitOn "\n").map (fun x => "\t" ++ x))

/-- One message's rendered entry, exactly as assembled in
`parse_channel_history`. -/
def renderEntry (users : List User) (checkThread : Bool) (m : Msg) : String :=
  let text := substituteMentions users (resolveText m)
  let timestamp := formatTs m.ts
  let entry :=
    match classify m with
    | .botMsg => "Message at " ++ timestamp ++ "\nBot: " ++ usrName m users ++ "\n" ++ text
    | _ =>
      "Message at " ++ timestamp ++ "\nUser: " ++ usrName m users ++ " (" ++
        usrRealName m users ++ ")\n" ++ text
  let entry := entry ++ (match m.reactions with | some r => reactionsBlock users r | none => "")
  let entry := entry ++ (match m.files with | some fs => filesBlock fs | none => "")
  let entry := entry ++ "\n\n" ++ SEP ++ "\n\n"
  if checkThread && m.parent_user_id.isSome then indentEntry entry else entry

/-- `parse_channel_history` on a record list: keep only records whose
`type` is `"message"`, then append each rendered entry (with trailing tabs
stripped) to the accumulated body. -/
def parse_channel_history (msgs : List Msg) (users : List User) (checkThread : Bool) : String :=
  (msgs.filter (fun m => m.type == "message")).foldl
    (fun body m => body ++ rstripTabs (renderEntry users checkThread m)) ""

/-- Claim C2 (code bug): the pre-buffer delays of consecutive unhinted 429
responses are 1, 4, 16, 64, ... — the fourth computed delay is 64 seconds,
exceeding the 60-second cap the code's own comment announces
(`# Cap the exponential backoff at 60 seconds`): the code stops doubling
`base_sleep` but the `2^(attempt-1)` factor keeps growing. -/
theorem backoff_cap_violated :
    preDelay 0 = 1 ∧ preDelay 1 = 4 ∧ preDelay 2 = 16 ∧
      preDelay 3 = 64 ∧ 60 < preDelay 3 := by decide

/-- Claim C1 (amended): for a finite page sequence in which every earlier
page carries a cursor that is non-blank (non-empty after whitespace
stripping) and the last page's cursor is absent or blank, `paginated_get`
returns exactly the concatenation of all pages' item lists in page order
and issues exactly one request per page. -/
theorem pagination_concat_requests (good : List SlackPage) (lastP : SlackPage)
    (lastItems : List String)
    (hg : ∀ p ∈ good, goodPage p)
    (hs : lastP.status = 200) (ho : lastP.ok = true)
    (hi : lastP.items = some lastItems)
    (hc : lastP.nextCursor = none ∨ ∃ c, lastP.nextCursor = some c ∧ stripStr c = "") :
    paginated_get (good ++ [lastP]) =
      .ok ((good.map (fun p => p.items.getD [])).flatten ++ lastItems, good.length + 1) := by
  induction good with
  | nil =>
    rcases hc with hc | ⟨c, hc, hcs⟩
    · simp [paginated_get, get_at_cursor, extractCursor, hs, ho, hi, hc]
    · simp [paginated_get, get_at_cursor, extractCursor, hs, ho, hi, hc, hcs]
  | cons p gs ih =>
    obtain ⟨hps, hpo, hpi, c, hpc, hpcs⟩ := hg p (List.mem_cons_self p gs)
    obtain ⟨its, hits⟩ := Option.isSome_iff_exists.mp hpi
    have ih' := ih (fun q hq => hg q (List.mem_cons_of_mem p hq))
    simp [paginated_get, get_at_cursor, extractCursor, hps, hpo, hpc, hpcs, hits, ih',
      List.append_assoc]

/-- Witness for C1's amended theorem at a concrete two-page traversal. -/
theorem pagination_concat_requests_witness :
    paginated_get [⟨200, true, some "c1", some ["a"]⟩, ⟨200, true, some "", some ["b"]⟩] =
      .ok (["a", "b"], 2) :=
  pagination_concat_requests [⟨200, true, some "c1", some ["a"]⟩]
    ⟨200, true, some "", some ["b"]⟩ ["b"]
    (fun p hp => by
      rcases List.mem_singleton.mp hp with rfl
      exact ⟨rfl, rfl, rfl, "c1", rfl, by decide⟩)
    rfl rfl rfl (Or.inr ⟨"", rfl, by decide⟩)

/-- Counterexample to claim C1 as stated: the cursor `" "` is a non-empty
string, yet the loop stops after page 1 (the code strips the cursor before
comparing with the empty string), so the traversal does not return both
pages' items and issues one request, not two. -/
theorem pagination_blank_cursor_counterex :
    (" " : String) ≠ "" ∧
    paginated_get [⟨200, true, some " ", some ["a"]⟩, ⟨200, true, none, some ["b"]⟩] =
      .ok (["a"], 1) ∧
    (Except.ok (["a"], 1) : Except PageErr (List String × Nat)) ≠ .ok (["a", "b"], 2) := by
  refine ⟨by decide, rfl, ?_⟩
  simp

/-- Claim C5: if the traversal reaches a page whose decoded body has
`ok = False`, `paginated_get` aborts with the API failure and returns no
accumulated items at all. -/
theorem not_ok_aborts_traversal (good : List SlackPage) (bad : SlackPage)
    (rest : List SlackPage)
    (hg : ∀ p ∈ good, goodPage p)
    (hbs : bad.status = 200) (hbo : bad.ok = false) :
    paginated_get (good ++ bad :: rest) = .error .apiNotOk := by
  induction good with
  | nil => simp [paginated_get, get_at_cursor, hbs, hbo]
  | cons p gs ih =>
    obtain ⟨hps, hpo, hpi, c, hpc, hpcs⟩ := hg p (List.mem_cons_self p gs)
    obtain ⟨its, hits⟩ := Option.isSome_iff_exists.mp hpi
    have ih' := ih (fun q hq => hg q (List.mem_cons_of_mem p hq))
    simp [paginated_get, get_at_cursor, extractCursor, hps, hpo, hpc, hpcs, hits, ih']

/-! ## Shared helper lemmas -/

theorem strip_all_ws {s : String} (h : stripStr s = "") :
    ∀ c ∈ s.data, c.isWhitespace = true := by
  intro c hc
  have hl : stripChars s.data = [] := congrArg String.data h
  unfold stripChars at hl
  rw [List.reverse_eq_nil_iff, List.dropWhile_eq_nil_iff] at hl
  have hdrop : ∀ x ∈ s.data.dropWhile Char.isWhitespace, x.isWhitespace = true :=
    fun x hx => hl x (List.mem_reverse.mpr hx)
  have hsplit := List.takeWhile_append_dropWhile Char.isWhitespace s.data
  rw [← hsplit] at hc
  rcases List.mem_append.mp hc with h1 | h1
  · exact List.mem_takeWhile_imp h1
  · exact hdrop _ h1

theorem strip_ne_empty {s : String} {c : Char} (hc : c ∈ s.data)
    (hw : c.isWhitespace = false) : stripStr s ≠ "" :=
  fun h => by simpa [hw] using strip_all_ws h c hc

theorem isPrefixOf_self_append (p y : List Char) : p.isPrefixOf (p ++ y) = true := by
  induction p with
  | nil => cases y <;> rfl
  | cons a as ih => simp [List.isPrefixOf, ih]

theorem containsSub_self_append (p y : List Char) : containsSub p (p ++ y) = true := by
  cases p with
  | nil => cases y <;> simp [containsSub, List.isPrefixOf]
  | cons c cs => simp [containsSub, isPrefixOf_self_append]

theorem containsSub_append_left (p x s : List Char) (h : containsSub p s = true) :
    containsSub p (x ++ s) = true := by
  induction x with
  | nil => simpa using h
  | cons c xs ih => simp [containsSub, ih]

theorem strContains_mid (a b c : String) : strContains (a ++ b ++ c) b = true := by
  unfold strContains
  rw [String.data_append, String.data_append, List.append_assoc]
  exact containsSub_append_left _ _ _ (containsSub_self_append _ _)

theorem name_from_uid_skip (uid : String) (pre rest : List User) (real : Bool)
    (h : ∀ v ∈ pre, v.id ≠ uid) :
    name_from_uid uid (pre ++ rest) real = name_from_uid uid rest real := by
  induction pre with
  | nil => rfl
  | cons v vs ih =>
    have hv := h v (List.mem_cons_self v vs)
    simp only [List.cons_append, name_from_uid, if_pos hv]
    exact ih (fun w hw => h w (List.mem_cons_of_mem v hw))

/-- Claim C9: `name_from_uid` is total and never raises — it resolves the
first record whose id matches, returns `"[null user]"` when none does, and
with the real-name variant falls back real name → display name →
`"[no full name]"`. -/
theorem name_from_uid_total_fallback (uid : String) (users : List User) :
    ((∀ u ∈ users, u.id ≠ uid) → ∀ real, name_from_uid uid users real = "[null user]") ∧
    (∀ pre u post, users = pre ++ u :: post → (∀ v ∈ pre, v.id ≠ uid) → u.id = uid →
      (name_from_uid uid users false = u.name) ∧
      (u.profile = none → name_from_uid uid users true = "[no full name]") ∧
      (∀ p rn, u.profile = some p → p.real_name = some rn →
        name_from_uid uid users true = rn) ∧
      (∀ p dn, u.profile = some p → p.real_name = none → p.display_name = some dn →
        name_from_uid uid users true = dn) ∧
      (∀ p, u.profile = some p → p.real_name = none → p.display_name = none →
        name_from_uid uid users true = "[no full name]")) := by
  constructor
  · intro h real
    induction users with
    | nil => rfl
    | cons u us ih =>
      have hu := h u (List.mem_cons_self u us)
      simp only [name_from_uid, if_pos hu]
      exact ih (fun v hv => h v (List.mem_cons_of_mem u hv))
  · intro pre u post hus hpre huid
    subst hus
    have hskip := fun real => name_from_uid_skip uid pre (u :: post) real hpre
    refine ⟨?_, ?_, ?_, ?_, ?_⟩
    · rw [hskip]; simp [name_from_uid, huid]
    · intro hp; rw [hskip]; simp [name_from_uid, huid, hp]
    · intro p rn hp hrn; rw [hskip]; simp [name_from_uid, huid, hp, hrn]
    · intro p dn hp hrn hdn; rw [hskip]; simp [name_from_uid, huid, hp, hrn, hdn]
    · intro p hp hrn hdn; rw [hskip]; simp [name_from_uid, huid, hp, hrn, hdn]

/-- Witness for C9: an unknown id resolves to the null placeholder, and a
match behind a non-matching record falls back to the display name. -/
theorem name_from_uid_total_fallback_witness :
    name_from_uid "U0" [⟨"U2", "bob", none⟩] false = "[null user]" ∧
    name_from_uid "U1" [⟨"U2", "bob", none⟩, ⟨"U1", "ann", some ⟨none, some "Ann D"⟩⟩] true =
      "Ann D" :=
  ⟨(name_from_uid_total_fallback "U0" [⟨"U2", "bob", none⟩]).1 (by decide) false,
   ((name_from_uid_total_fallback "U1"
        [⟨"U2", "bob", none⟩, ⟨"U1", "ann", some ⟨none, some "Ann D"⟩⟩]).2
      [⟨"U2", "bob", none⟩] ⟨"U1", "ann", some ⟨none, some "Ann D"⟩⟩ [] rfl (by decide)
      rfl).2.2.2.1 ⟨none, some "Ann D"⟩ "Ann D" rfl rfl rfl⟩

/-- Claim C10: a record whose `type` is not `"message"` contributes nothing
to the transcript — rendering a sequence with it equals rendering the
sequence without it. -/
theorem render_filters_non_message (msgs₁ msgs₂ : List Msg) (m : Msg)
    (users : List User) (ct : Bool) (h : m.type ≠ "message") :
    parse_channel_history (msgs₁ ++ m :: msgs₂) users ct =
      parse_channel_history (msgs₁ ++ msgs₂) users ct := by
  simp [parse_channel_history, List.filter_append, List.filter_cons, h]

/-- Witness for C10 at a concrete `channel_join` record. -/
theorem render_filters_non_message_witness :
    parse_channel_history
        [⟨"channel_join", none, none, none, none, some "joined", 0, none, none, none, none⟩]
        [] false =
      parse_channel_history [] [] false :=
  render_filters_non_message [] []
    ⟨"channel_join", none, none, none, none, some "joined", 0, none, none, none, none⟩
    [] false (by decide)

/-- Claim C3 (amended): a record with a `user` field classifies as a user
message; one without `user` but with `bot_id` or `username` classifies as
a bot message; all remaining records — including those whose only bot
marking is the `subtype` field, which the code never consults — classify
as unknown.  Classification is total. -/
theorem classify_fields_total (m : Msg) :
    (m.user.isSome → classify m = .userMsg) ∧
    (m.user = none → (m.bot_id.isSome ∨ m.username.isSome) → classify m = .botMsg) ∧
    (m.user = none → m.bot_id = none → m.username = none → classify m = .unknownMsg) ∧
    (classify m = .userMsg ∨ classify m = .botMsg ∨ classify m = .unknownMsg) := by
  refine ⟨?_, ?_, ?_, ?_⟩
  · intro h; simp [classify, h]
  · intro hu hb
    rcases hb with hb | hb <;> simp [classify, hu, hb]
  · intro h1 h2 h3; simp [classify, h1, h2, h3]
  · unfold classify
    split
    · exact Or.inl rfl
    · split
      · exact Or.inr (Or.inl rfl)
      · exact Or.inr (Or.inr rfl)

/-- Witness for C3's amended theorem on three concrete records. -/
theorem classify_fields_total_witness :
    classify ⟨"message", some "U1", none, none, none, some "hi", 0, none, none, none, none⟩ =
      .userMsg ∧
    classify ⟨"message", none, some "B1", none, none, some "hi", 0, none, none, none, none⟩ =
      .botMsg ∧
    classify ⟨"message", none, none, none, none, some "hi", 0, none, none, none, none⟩ =
      .unknownMsg :=
  ⟨(classify_fields_total
      ⟨"message", some "U1", none, none, none, some "hi", 0, none, none, none, none⟩).1 rfl,
   (classify_fields_total
      ⟨"message", none, some "B1", none, none, some "hi", 0, none, none, none, none⟩).2.1 rfl
      (Or.inl rfl),
   (classify_fields_total
      ⟨"message", none, none, none, none, some "hi", 0, none, none, none, none⟩).2.2.1 rfl rfl
      rfl⟩

/-- Counterexample to claim C3 as stated: a record of type `"message"`
whose only bot marking is `subtype = "bot_message"` (no `user`, `bot_id`
or `username`) is classified unknown, not bot — `parse_channel_history`
never consults `subtype`. -/
theorem classify_subtype_counterex :
    classify ⟨"message", none, none, none, some "bot_message", some "x", 0,
        none, none, none, none⟩ = .unknownMsg ∧
    usrName ⟨"message", none, none, none, some "bot_message", some "x", 0,
        none, none, none, none⟩ [] = "Unknown" ∧
    MsgClass.unknownMsg ≠ MsgClass.botMsg := by decide

/-- Claim C8 (amended): the rendered bot display name is the explicit
`username` when present, otherwise the raw `bot_id` value (no `"Bot "`
prefix is synthesized), otherwise the literal `"Bot"`. -/
theorem bot_name_priority (m : Msg) :
    (∀ un, m.username = some un → botName m = un) ∧
    (m.username = none → ∀ b, m.bot_id = some b → botName m = b) ∧
    (m.username = none → m.bot_id = none → botName m = "Bot") := by
  refine ⟨?_, ?_, ?_⟩ <;> intros <;> simp [botName, *]

/-- Witness for C8's amended theorem on the three priority levels. -/
theorem bot_name_priority_witness :
    botName ⟨"message", none, some "B9", some "CI", none, some "x", 0,
        none, none, none, none⟩ = "CI" ∧
    botName ⟨"message", none, some "B9", none, none, some "x", 0,
        none, none, none, none⟩ = "B9" ∧
    botName ⟨"message", none, none, none, none, some "x", 0,
        none, none, none, none⟩ = "Bot" :=
  ⟨(bot_name_priority ⟨"message", none, some "B9", some "CI", none, some "x", 0,
      none, none, none, none⟩).1 "CI" rfl,
   (bot_name_priority ⟨"message", none, some "B9", none, none, some "x", 0,
      none, none, none, none⟩).2.1 rfl "B9" rfl,
   (bot_name_priority ⟨"message", none, none, none, none, some "x", 0,
      none, none, none, none⟩).2.2 rfl rfl⟩

/-- Counterexample to claim C8 as stated: a bot-classified record with
`bot_id = "B1"` and no `username` gets display name `"B1"`, not the
synthesized `"Bot B1"` the claim describes. -/
theorem bot_id_name_counterex :
    classify ⟨"message", none, some "B1", none, none, some "x", 0,
        none, none, none, none⟩ = .botMsg ∧
    botName ⟨"message", none, some "B1", none, none, some "x", 0,
        none, none, none, none⟩ = "B1" ∧
    "B1" ≠ "Bot " ++ "B1" := by decide

/-- Witness for C5 at a concrete traversal whose second page is not ok. -/
theorem not_ok_aborts_traversal_witness :
    paginated_get [⟨200, true, some "c9", some ["x"]⟩, ⟨200, false, none, some []⟩] =
      .error .apiNotOk :=
  not_ok_aborts_traversal [⟨200, true, some "c9", some ["x"]⟩]
    ⟨200, false, none, some []⟩ []
    (fun p hp => by
      rcases List.mem_singleton.mp hp with rfl
      exact ⟨rfl, rfl, rfl, "c9", rfl, by decide⟩)
    rfl rfl

theorem replaceAux_id (p r : List Char) : ∀ fuel s, containsSub p s = false →
    replaceAux p r fuel s = s := by
  intro fuel
  induction fuel with
  | zero => intro s _; cases s <;> rfl
  | succ n ih =>
    intro s h
    cases s with
    | nil => rfl
    | cons c rest =>
      rw [containsSub, Bool.or_eq_false_iff] at h
      simp [replaceAux, h.1, ih rest h.2]

theorem pyReplace_id (p r s : String) (h : strContains s p = false) :
    pyReplace p r s = s :=
  congrArg String.mk (replaceAux_id p.data r.data s.data.length s.data h)

theorem subst_fold_id (users : List User) (ids : List String) (t : String)
    (h : ∀ uid ∈ ids, strContains t (mentionTok uid) = false) :
    ids.foldl
      (fun txt uid =>
        pyReplace (mentionTok uid)
          (mentionTok uid ++ " (" ++ name_from_uid uid users false ++ ")") txt) t = t := by
  induction ids with
  | nil => rfl
  | cons i is ih =>
    have h1 := h i (List.mem_cons_self i is)
    rw [List.foldl_cons, pyReplace_id _ _ _ h1]
    exact ih (fun uid hu => h uid (List.mem_cons_of_mem i hu))

theorem rawText_blank (m : Msg)
    (hb : m.text = none ∨ ∃ t, m.text = some t ∧ stripStr t = "") :
    rawText m = attText m := by
  rcases hb with hb | ⟨t, ht, hs⟩
  · simp [rawText, hb]
  · simp [rawText, ht, hs]

theorem attLine_title_only (ti : String) :
    attLine ⟨some ti, none, none⟩ = "Title: " ++ ti ++ "\n" := by
  simp [attLine]

/-- Claim C4: display-text resolution — a present non-blank `text` is used
verbatim; otherwise the text synthesized from the attachments (per
attachment its text, its title and one label-value line per field) is
used when non-blank; otherwise the fixed placeholder.  In particular,
blank text with no attachments renders `"[no message content]"`, and
blank text with a single title-only attachment renders the non-empty line
`"Title: <title>"` containing that title. -/
theorem text_fallback_chain (m : Msg) :
    (∀ t, m.text = some t → stripStr t ≠ "" → resolveText m = t) ∧
    ((m.text = none ∨ ∃ t, m.text = some t ∧ stripStr t = "") → m.attachments = none →
      resolveText m = "[no message content]") ∧
    ((m.text = none ∨ ∃ t, m.text = some t ∧ stripStr t = "") →
      ∀ ats, m.attachments = some ats →
      stripStr (String.join (ats.map attLine)) = "" →
      resolveText m = "[no message content]") ∧
    ((m.text = none ∨ ∃ t, m.text = some t ∧ stripStr t = "") →
      ∀ ats, m.attachments = some ats →
      stripStr (String.join (ats.map attLine)) ≠ "" →
      resolveText m = String.join (ats.map attLine)) ∧
    ((m.text = none ∨ ∃ t, m.text = some t ∧ stripStr t = "") →
      ∀ ti, m.attachments = some [⟨some ti, none, none⟩] →
      resolveText m = "Title: " ++ ti ++ "\n" ∧ resolveText m ≠ "" ∧
      strContains (resolveText m) ti = true) := by
  refine ⟨?_, ?_, ?_, ?_, ?_⟩
  · intro t ht hs
    simp [resolveText, rawText, ht, hs]
  · intro hb hatt
    have h1 := rawText_blank m hb
    simp [resolveText, h1, attText, hatt, stripStr, stripChars]
  · intro hb ats hats hs
    have h1 := rawText_blank m hb
    have h2 : attText m = String.join (ats.map attLine) := by simp [attText, hats]
    simp [resolveText, h1, h2, hs]
  · intro hb ats hats hs
    have h1 := rawText_blank m hb
    have h2 : attText m = String.join (ats.map attLine) := by simp [attText, hats]
    simp [resolveText, h1, h2, hs]
  · intro hb ti hats
    have h1 := rawText_blank m hb
    have h2 : attText m = "Title: " ++ ti ++ "\n" := by
      simp [attText, hats, attLine_title_only, String.join]
    have hr : rawText m = "Title: " ++ ti ++ "\n" := h1.trans h2
    have hm : 'T' ∈ ("Title: " ++ ti ++ "\n").data := by
      rw [String.data_append, String.data_append]
      exact List.mem_append.mpr (Or.inl (List.mem_append.mpr (Or.inl (by decide))))
    have hs : stripStr ("Title: " ++ ti ++ "\n") ≠ "" := strip_ne_empty hm (by decide)
    have h5 : resolveText m = "Title: " ++ ti ++ "\n" := by simp [resolveText, hr, hs]
    refine ⟨h5, ?_, ?_⟩
    · intro h0
      rw [h5] at h0
      exact hs (by rw [h0]; decide)
    · rw [h5]
      exact strContains_mid "Title: " ti "\n"

/-- Witness for C4: blank text with no attachments gives the placeholder;
blank text with one title-only attachment gives the title line. -/
theorem text_fallback_chain_witness :
    resolveText ⟨"message", none, none, none, none, some " ", 0, none, none, none, none⟩ =
      "[no message content]" ∧
    resolveText ⟨"message", none, none, none, none, some "", 0,
        some [⟨some "System Alert", none, none⟩], none, none, none⟩ =
      "Title: " ++ "System Alert" ++ "\n" :=
  ⟨(text_fallback_chain
      ⟨"message", none, none, none, none, some " ", 0, none, none, none, none⟩).2.1
      (Or.inr ⟨" ", rfl, by decide⟩) rfl,
   ((text_fallback_chain
      ⟨"message", none, none, none, none, some "", 0,
        some [⟨some "System Alert", none, none⟩], none, none, none⟩).2.2.2.2
      (Or.inr ⟨"", rfl, rfl⟩) "System Alert" rfl).1⟩

/-- Claim C6 (code bug): with one resolvable and one unresolvable file the
rendered block glues the placeholder onto the resolved line — the source
appends the two newline-joined groups with no separator between them, so
the block has a single file line, not one line per file. -/
theorem files_block_glued :
    filesBlock [⟨"F1", some "a.txt", some "http://x"⟩, ⟨"F2", none, none⟩] =
      "\nFiles:\n - [F1] a.txt, http://x - [F2] [deleted, oversize, or unavailable file]" ∧
    (filesBlock [⟨"F1", some "a.txt", some "http://x"⟩, ⟨"F2", none, none⟩]).data.count '\n' =
      2 ∧
    strContains (filesBlock [⟨"F1", some "a.txt", some "http://x"⟩, ⟨"F2", none, none⟩])
      "\n - [F2]" = false ∧
    strContains (filesBlock [⟨"F1", some "a.txt", some "http://x"⟩, ⟨"F2", none, none⟩])
      " - [F1] a.txt, http://x - [F2] [deleted, oversize, or unavailable file]" = true := by
  decide

/-- Claim C7 (amended): the mention-substitution step leaves any text
containing no mention token of a known user unchanged, so on such text it
is idempotent; on text that does contain a known mention it re-triggers
on its own output (see the counterexample), because the replacement
string still contains the original token. -/
theorem mention_subst_stable (users : List User) (t : String)
    (h : ∀ u ∈ users, strContains t (mentionTok u.id) = false) :
    substituteMentions users t = t ∧
    substituteMentions users (substituteMentions users t) = substituteMentions users t := by
  have h1 : substituteMentions users t = t := by
    unfold substituteMentions
    refine subst_fold_id users (users.map (fun u => u.id)) t ?_
    intro uid hu
    obtain ⟨u, hmem, rfl⟩ := List.mem_map.mp hu
    exact h u hmem
  exact ⟨h1, by rw [h1, h1]⟩

/-- Witness for C7's amended theorem on mention-free text. -/
theorem mention_subst_stable_witness :
    substituteMentions [⟨"U1", "ann", none⟩] "hello" = "hello" ∧
    substituteMentions [⟨"U1", "ann", none⟩]
        (substituteMentions [⟨"U1", "ann", none⟩] "hello") =
      substituteMentions [⟨"U1", "ann", none⟩] "hello" :=
  mention_subst_stable [⟨"U1", "ann", none⟩] "hello" (by decide)

/-- Counterexample to claim C7 as stated: substitution applied to its own
output appends the annotation again — `<@U1>` becomes `<@U1> (ann)` and
then `<@U1> (ann) (ann)` — so the step is not idempotent. -/
theorem mention_subst_counterex :
    substituteMentions [⟨"U1", "ann", none⟩] "<@U1>" = "<@U1> (ann)" ∧
    substituteMentions [⟨"U1", "ann", none⟩] "<@U1> (ann)" = "<@U1> (ann) (ann)" ∧
    substituteMentions [⟨"U1", "ann", none⟩]
        (substituteMentions [⟨"U1", "ann", none⟩] "<@U1>") ≠
      substituteMentions [⟨"U1", "ann", none⟩] "<@U1>" := by
  decide

end SlackExport
